import Mathlib

/-
Verification of the trajectory data-reduction core of vasp-opt-follows.

The embedding covers src/vasp_opt_follows/data.py (the VASPData record:
its constructor, the HDF5 loader VASPData.from_h5, and the cumulative
displacement series computed in VASPData.make_graphs) together with the
tabular view built in src/vasp_opt_follows/windows.py
(GraphWindow.make_notebook_page_data).

Numbers are modelled as exact rationals.  numpy arrays become nested
lists indexed [step][atom][axis]; a read past the end of a dimension
uses List.getD with the same default only where the original code could
never reach it.  Python exceptions that can escape the loader become an
explicit error value (Except), one constructor per exception class that
the code can actually raise (windows.py catches OSError, KeyError,
ValueError and VASPDataError around the loader call).
-/

namespace VaspOptFollows

/-- Exception classes observable at the loader boundary.  KeyError is
raised by h5py when a path is absent (its message names the path);
ValueError and IndexError are raised by numpy reductions and indexing;
AttributeError is raised by Python attribute lookup; VASPDataError is
the class defined at data.py lines 10-11 -- the code defines it but
never raises it. -/
inductive PyErr where
  | keyError (field : String)
  | valueError
  | indexError
  | attributeError
  | vaspDataError (msg : String)
deriving DecidableEq

/-- Equality of loader outcomes is decidable. -/
instance instDecEqExcept {ε α : Type} [DecidableEq ε] [DecidableEq α] :
    DecidableEq (Except ε α) := fun x y =>
  match x, y with
  | Except.error a, Except.error b =>
    if h : a = b then isTrue (congrArg Except.error h)
    else isFalse (fun hc => h (Except.error.inj hc))
  | Except.error _, Except.ok _ => isFalse (fun hc => Except.noConfusion hc)
  | Except.ok _, Except.error _ => isFalse (fun hc => Except.noConfusion hc)
  | Except.ok a, Except.ok b =>
    if h : a = b then isTrue (congrArg Except.ok h)
    else isFalse (fun hc => h (Except.ok.inj hc))

/-- One-dimensional array of floats. -/
abbrev Arr1 := List ℚ

/-- Two-dimensional array of floats. -/
abbrev Arr2 := List (List ℚ)

/-- Three-dimensional array of floats. -/
abbrev Arr3 := List (List (List ℚ))

/-- Floor square root on naturals (the value Nat.sqrt computes),
written with structural recursion so that proofs can evaluate it. -/
def natSqrt (n : Nat) : Nat := ((List.range (n + 1)).filter (fun k => k * k ≤ n)).length - 1

/-- Square root on rationals, taken componentwise on numerator and
denominator.  This models the floating-point square root of numpy: on
perfect-square rationals (in particular 0, the only radicand whose
value any theorem below inspects) both are exact; on other radicands
no statement in this file depends on the value. -/
def ratSqrt (q : ℚ) : ℚ := (natSqrt q.num.natAbs : ℚ) / (natSqrt q.den : ℚ)

/-- Euclidean norm of one spatial vector: numpy.linalg.norm over the
axis-2 slice of length 3 (data.py lines 27, 32, 36 and 101). -/
def norm3 (v : List ℚ) : ℚ := ratSqrt ((v.map (fun x => x * x)).sum)

/-- numpy.mean over one axis slice.  For an empty slice numpy warns and
yields NaN without raising; the junk value 0 below plays NaN's role and
is shown never to reach a successfully constructed record. -/
def mean (l : List ℚ) : ℚ := l.sum / (l.length : ℚ)

/-- numpy.min over a nonempty axis (the empty case raises and is
handled at the call site). -/
def minList : List ℚ → ℚ
  | [] => 0
  | x :: xs => xs.foldl min x

/-- numpy.max over a nonempty axis (the empty case raises and is
handled at the call site). -/
def maxList : List ℚ → ℚ
  | [] => 0
  | x :: xs => xs.foldl max x

/-- numpy.max(rows, axis=1): reduces each row; raises ValueError
(zero-size array to reduction operation) as soon as some row is empty,
which numpy signals whenever the reduced axis has size 0 with outputs
to produce. -/
def maxRows? (rows : Arr2) : Option Arr1 :=
  if rows.all (fun row => !row.isEmpty) then some (rows.map maxList) else none

/-- Elementwise difference of two vectors. -/
def rowSub (a b : List ℚ) : List ℚ := List.zipWith (fun x y => x - y) a b

/-- Elementwise difference of two matrices. -/
def matSub (a b : Arr2) : Arr2 := List.zipWith rowSub a b

/-- xs[1:] - xs[:-1] (data.py line 25). -/
def diffSeq (xs : Arr1) : Arr1 := List.zipWith (fun a b => a - b) xs.tail xs

/-- xs[1:] - xs[:-1] on a stack of matrices (data.py line 31). -/
def diffMat (xs : Arr3) : Arr3 := List.zipWith matSub xs.tail xs

/-- Determinant of a 3x3 matrix, the exact value that
numpy.linalg.det computes for each lattice matrix (data.py line 37). -/
def det3 (m : Arr2) : ℚ :=
  (((m.getD 0 []).getD 0 0) * (((m.getD 1 []).getD 1 0) * ((m.getD 2 []).getD 2 0)
      - ((m.getD 1 []).getD 2 0) * ((m.getD 2 []).getD 1 0)))
  - (((m.getD 0 []).getD 1 0) * (((m.getD 1 []).getD 0 0) * ((m.getD 2 []).getD 2 0)
      - ((m.getD 1 []).getD 2 0) * ((m.getD 2 []).getD 0 0)))
  + (((m.getD 0 []).getD 2 0) * (((m.getD 1 []).getD 0 0) * ((m.getD 2 []).getD 1 0)
      - ((m.getD 1 []).getD 1 0) * ((m.getD 2 []).getD 0 0)))

/-- The record built by VASPData.__init__ (data.py lines 15-37): the
four raw arrays plus every derived series assigned to self there, in
source order.  Note that no step-count attribute N is among them. -/
structure VASPData where
  energies : Arr1
  forces : Arr3
  positions : Arr3
  lattice_vectors : Arr3
  min_energy : ℚ
  delta_e : Arr1
  force_intensities : Arr2
  forces_rms : Arr1
  forces_max : Arr1
  displacements : Arr3
  displacement_intensities : Arr2
  displacements_rms : Arr1
  displacements_max : Arr1
  lattice_vectors_norm : Arr2
  cell_volumes : Arr1
deriving DecidableEq, Inhabited

/-- VASPData.__init__ (data.py lines 15-37).  numpy.min on an empty
energies array raises ValueError (line 24), and numpy.max over an
empty atom axis raises ValueError (lines 29 and 34); every other line
is total.  The rms series are computed exactly as in lines 28 and 33:
square the intensities, average over atoms, take the square root. -/
def VASPData.init (energies : Arr1) (forces positions lattice_vectors : Arr3) :
    Except PyErr VASPData :=
  if energies.isEmpty then Except.error PyErr.valueError
  else
    match maxRows? (forces.map (fun s => s.map norm3)) with
    | none => Except.error PyErr.valueError
    | some forces_max =>
      match maxRows? ((diffMat positions).map (fun s => s.map norm3)) with
      | none => Except.error PyErr.valueError
      | some displacements_max =>
        Except.ok
          { energies := energies
            forces := forces
            positions := positions
            lattice_vectors := lattice_vectors
            min_energy := minList energies
            delta_e := diffSeq energies
            force_intensities := forces.map (fun s => s.map norm3)
            forces_rms := (forces.map (fun s => s.map norm3)).map
              (fun row => ratSqrt (mean (row.map (fun x => x * x))))
            forces_max := forces_max
            displacements := diffMat positions
            displacement_intensities := (diffMat positions).map (fun s => s.map norm3)
            displacements_rms := ((diffMat positions).map (fun s => s.map norm3)).map
              (fun row => ratSqrt (mean (row.map (fun x => x * x))))
            displacements_max := displacements_max
            lattice_vectors_norm := lattice_vectors.map (fun s => s.map norm3)
            cell_volumes := lattice_vectors.map det3 }

/-- The HDF5 container as the loader sees it: one optional dataset per
path read by from_h5 (spec section 6).  A missing path raises KeyError
at the lookup. -/
structure H5File where
  energies : Option Arr2
  forces : Option Arr3
  position_ions : Option Arr3
  lattice_vectors : Option Arr3
  selective_dynamics_ions : Option (List (List Int))
deriving DecidableEq

/-- Column selection energies[:, energy_label] (data.py line 49);
numpy raises IndexError when the column index is out of range. -/
def selectColumn (rows : Arr2) (label : Nat) : Except PyErr Arr1 :=
  if rows.all (fun r => label < r.length) then Except.ok (rows.map (fun r => r.getD label 0))
  else Except.error PyErr.indexError

/-- numpy.where(mask == 0) (data.py line 57): the (atom, axis) pairs
with a zero mask entry, in row-major order. -/
def maskZeroPairs (mask : List (List Int)) : List (Nat × Nat) :=
  ((List.range mask.length).map (fun a =>
    (List.range (mask.getD a []).length).filterMap (fun x =>
      if (mask.getD a []).getD x 1 = 0 then some (a, x) else none))).flatten

/-- The flat list of indices that the assignment forces[:, pos_mask] = 0
(data.py line 58) applies to the ATOM axis: numpy converts the tuple
pos_mask = (atom_indices, axis_indices) into one stacked integer index
array on axis 1, so both the atom indices and the axis indices of the
zero mask entries are used as atom indices. -/
def maskZeroIdxs (mask : List (List Int)) : List Nat :=
  (maskZeroPairs mask).map Prod.fst ++ (maskZeroPairs mask).map Prod.snd

/-- Size of the atom dimension (axis 1) of the forces array, against
which numpy bounds-checks the index array of line 58. -/
def atomDim (forces : Arr3) : Nat := (forces.headD []).length

/-- Effect of forces[:, pos_mask] = .0 (data.py line 58) once every
index is in bounds: for every step, every atom row whose index occurs
in the stacked index list is set to zero over all three axes. -/
def zeroAtoms (forces : Arr3) (idxs : List Nat) : Arr3 :=
  forces.map (fun step =>
    (List.range step.length).map (fun a =>
      if a ∈ idxs then (step.getD a []).map (fun _ => (0 : ℚ)) else step.getD a []))

/-- VASPData.from_h5 (data.py lines 39-60): fetch the four datasets
(KeyError when absent, in source order), select the energy column,
apply the selective-dynamics mask when present (IndexError when the
stacked index array of line 58 leaves the atom dimension), and build
the record. -/
def VASPData.from_h5 (f : H5File) (energy_label : Nat) : Except PyErr VASPData :=
  match f.energies with
  | none => Except.error (PyErr.keyError "energies")
  | some eRows =>
    match selectColumn eRows energy_label with
    | Except.error e => Except.error e
    | Except.ok energies =>
      match f.forces with
      | none => Except.error (PyErr.keyError "forces")
      | some forces0 =>
        match f.position_ions with
        | none => Except.error (PyErr.keyError "position_ions")
        | some positions =>
          match f.lattice_vectors with
          | none => Except.error (PyErr.keyError "lattice_vectors")
          | some lattice_vectors =>
            match f.selective_dynamics_ions with
            | none => VASPData.init energies forces0 positions lattice_vectors
            | some mask =>
              if (maskZeroIdxs mask).any (fun i => atomDim forces0 ≤ i) then
                Except.error PyErr.indexError
              else
                VASPData.init energies (zeroAtoms forces0 (maskZeroIdxs mask))
                  positions lattice_vectors

/-- The cumulative displacement series computed inside
VASPData.make_graphs (data.py lines 100-102), on every call to it:
ddisps = positions[1:] - positions[0], per-atom norms, summed over
atoms.  It is not stored on the record. -/
def VASPData.ddisps_sum (r : VASPData) : Arr1 :=
  ((r.positions.tail.map (fun p => matSub p (r.positions.headD []))).map
    (fun step => step.map norm3)).map List.sum

/-- The attribute names that VASPData.__init__ binds on self
(data.py lines 18-37), in assignment order.  Python attribute lookup
on a VASPData instance succeeds exactly for these names. -/
def VASPData.attrNames : List String :=
  ["energies", "forces", "positions", "lattice_vectors",
   "min_energy", "delta_e",
   "force_intensities", "forces_rms", "forces_max",
   "displacements", "displacement_intensities", "displacements_rms", "displacements_max",
   "lattice_vectors_norm", "cell_volumes"]

/-- Python attribute access data.N (windows.py line 107).  Were the
attribute present it would be the number of steps; VASPData.__init__
never assigns it, so the lookup raises AttributeError. -/
def VASPData.getN (d : VASPData) : Except PyErr Nat :=
  if "N" ∈ VASPData.attrNames then Except.ok d.energies.length
  else Except.error PyErr.attributeError

/-- One row of the tabular view (windows.py lines 108-114): step
index, energy, optional delta energy (blank for step 0), max and rms
force, optional max and rms displacement (blank for step 0), the three
lattice-vector norms and the cell volume. -/
structure DataRow where
  idx : Nat
  energy : ℚ
  delta_e : Option ℚ
  forces_max : ℚ
  forces_rms : ℚ
  displacements_max : Option ℚ
  displacements_rms : Option ℚ
  a : ℚ
  b : ℚ
  c : ℚ
  volume : ℚ
deriving DecidableEq

/-- The row appended for step i (windows.py lines 108-114). -/
def mkDataRow (d : VASPData) (i : Nat) : DataRow :=
  { idx := i
    energy := d.energies.getD i 0
    delta_e := if 0 < i then some (d.delta_e.getD (i - 1) 0) else none
    forces_max := d.forces_max.getD i 0
    forces_rms := d.forces_rms.getD i 0
    displacements_max := if 0 < i then some (d.displacements_max.getD (i - 1) 0) else none
    displacements_rms := if 0 < i then some (d.displacements_rms.getD (i - 1) 0) else none
    a := (d.lattice_vectors_norm.getD i []).getD 0 0
    b := (d.lattice_vectors_norm.getD i []).getD 1 0
    c := (d.lattice_vectors_norm.getD i []).getD 2 0
    volume := d.cell_volumes.getD i 0 }

/-- GraphWindow.make_notebook_page_data (windows.py lines 107-114):
one row per step of the loop for i in range(data.N).  The loop bound
is the attribute access data.N, so the whole construction fails with
AttributeError before any row is produced. -/
def make_notebook_page_data (d : VASPData) : Except PyErr (List DataRow) :=
  match d.getN with
  | Except.error e => Except.error e
  | Except.ok n => Except.ok ((List.range n).map (mkDataRow d))

/-- Whether a loader outcome is the repository's own typed error class
VASPDataError (data.py lines 10-11), as opposed to a Python builtin --
the distinction windows.py line 57 draws in its except clause.  The
typed errors the spec prescribes (MissingFieldError,
ShapeMismatchError) would be such values; the code never produces
one. -/
def loadErrIsTyped (r : Except PyErr VASPData) : Bool :=
  match r with
  | Except.error (PyErr.vaspDataError _) => true
  | _ => false

/-- The spec's definition of the cumulative displacement at step i,
written from its words alone for comparison with the source series:
sum over atoms of the Euclidean norm of positions[i] - positions[0]. -/
def cumulative_displacement_spec (positions : Arr3) (i : Nat) : ℚ :=
  ((matSub (positions.getD i []) (positions.getD 0 [])).map norm3).sum

/-! Concrete fixtures used by the witnesses below. -/

/-- Identity lattice matrix used by several fixtures. -/
def idLat : Arr2 := [[1, 0, 0], [0, 1, 0], [0, 0, 1]]

/-- Mask of the spec scenario: atom 2 (index 1) frozen on x and y. -/
def fC1mask : List (List Int) := [[1, 1, 1], [0, 0, 1]]

/-- File of the spec scenario: 1 step, 2 atoms, forces of atom 2 at
step 0 equal to (3, 4, 0), mask freezing atom 2 on x and y. -/
def fC1 : H5File :=
  { energies := some [[0, 5]]
    forces := some [[[9, 9, 9], [3, 4, 0]]]
    position_ions := some [[[0, 0, 0], [1, 1, 1]]]
    lattice_vectors := some [idLat]
    selective_dynamics_ions := some fC1mask }

/-- The record the loader builds from fC1. -/
def recC1 : VASPData := (VASPData.from_h5 fC1 1).toOption.getD default

/-- Mask with a single zero entry at atom 0, axis y. -/
def fC2mask : List (List Int) := [[1, 0, 1], [1, 1, 1], [1, 1, 1]]

/-- File with 1 step and 3 atoms whose only frozen degree of freedom
is (atom 0, axis y); the raw force on atom 1 is (4, 5, 6). -/
def fC2 : H5File :=
  { energies := some [[0, 10]]
    forces := some [[[1, 2, 3], [4, 5, 6], [7, 8, 9]]]
    position_ions := some [[[0, 0, 0], [0, 0, 0], [0, 0, 0]]]
    lattice_vectors := some [idLat]
    selective_dynamics_ions := some fC2mask }

/-- Energies of the two-step length fixture. -/
def esC3 : Arr1 := [1, 2]

/-- Forces of the two-step length fixture. -/
def fsC3 : Arr3 := [[[1, 0, 0]], [[2, 0, 0]]]

/-- Positions of the two-step length fixture. -/
def psC3 : Arr3 := [[[0, 0, 0]], [[1, 1, 1]]]

/-- Lattice vectors of the two-step length fixture. -/
def lsC3 : Arr3 := [idLat, idLat]

/-- The record built from the two-step length fixture. -/
def recC3 : VASPData := (VASPData.init esC3 fsC3 psC3 lsC3).toOption.getD default

/-- Energies of the spec scenario: [10.0, 9.5, 9.6]. -/
def esC4 : Arr1 := [10, 19/2, 48/5]

/-- Forces of the three-step fixture (2 atoms). -/
def fsC4 : Arr3 := [[[1, 0, 0], [0, 1, 0]], [[0, 2, 0], [0, 0, 2]], [[3, 0, 0], [0, 3, 0]]]

/-- Positions of the three-step fixture (2 atoms). -/
def psC4 : Arr3 := [[[0, 0, 0], [1, 0, 0]], [[0, 1, 0], [1, 1, 0]], [[0, 0, 1], [1, 0, 1]]]

/-- Lattice vectors of the three-step fixture. -/
def lsC4 : Arr3 := [idLat, idLat, idLat]

/-- The record built from the three-step fixture. -/
def recC4 : VASPData := (VASPData.init esC4 fsC4 psC4 lsC4).toOption.getD default

/-- Zero-atom file: 1 step, forces and positions of shape (1, 0, 3). -/
def fC6 : H5File :=
  { energies := some [[0, 1]]
    forces := some [[]]
    position_ions := some [[]]
    lattice_vectors := some [idLat]
    selective_dynamics_ions := none }

/-- A container with none of the required paths. -/
def fC7 : H5File :=
  { energies := none, forces := none, position_ions := none, lattice_vectors := none
    selective_dynamics_ions := none }

/-- Container missing only the forces path. -/
def fC7forces : H5File :=
  { energies := some [[0, 1]], forces := none, position_ions := some [[[0, 0, 0]]]
    lattice_vectors := some [idLat], selective_dynamics_ions := none }

/-- Container missing only the position_ions path. -/
def fC7positions : H5File :=
  { energies := some [[0, 1]], forces := some [[[1, 0, 0]]], position_ions := none
    lattice_vectors := some [idLat], selective_dynamics_ions := none }

/-- Container missing only the lattice_vectors path. -/
def fC7lattice : H5File :=
  { energies := some [[0, 1]], forces := some [[[1, 0, 0]]]
    position_ions := some [[[0, 0, 0]]], lattice_vectors := none
    selective_dynamics_ions := none }

/-- Positions of the two-step cumulative-displacement fixture. -/
def psC8 : Arr3 := [[[0, 0, 0], [1, 0, 0]], [[3, 4, 0], [1, 2, 2]]]

/-- Forces of the two-step cumulative-displacement fixture. -/
def fsC8 : Arr3 := [[[1, 0, 0], [0, 1, 0]], [[0, 2, 0], [2, 0, 0]]]

/-- Energies of the two-step cumulative-displacement fixture. -/
def esC8 : Arr1 := [3, 2]

/-- Lattice vectors of the two-step cumulative-displacement fixture. -/
def lsC8 : Arr3 := [idLat, idLat]

/-- The record built from the cumulative-displacement fixture. -/
def recC8 : VASPData := (VASPData.init esC8 fsC8 psC8 lsC8).toOption.getD default

/-- A fully derived single-step record (1 atom, zero forces), used to
exercise the tabular view. -/
def dC9 : VASPData :=
  { energies := [1]
    forces := [[[0, 0, 0]]]
    positions := [[[0, 0, 0]]]
    lattice_vectors := [idLat]
    min_energy := 1
    delta_e := []
    force_intensities := [[0]]
    forces_rms := [0]
    forces_max := [0]
    displacements := []
    displacement_intensities := []
    displacements_rms := []
    displacements_max := []
    lattice_vectors_norm := [[1, 1, 1]]
    cell_volumes := [1] }

/-- Two-atom file whose mask freezes a z component: the axis index 2
is not smaller than the atom count 2. -/
def fC10mask : List (List Int) := [[1, 1, 1], [1, 1, 0]]

/-- File for the out-of-bounds mask scenario. -/
def fC10 : H5File :=
  { energies := some [[0, 1]]
    forces := some [[[1, 0, 0], [0, 1, 0]]]
    position_ions := some [[[0, 0, 0], [1, 0, 0]]]
    lattice_vectors := some [idLat]
    selective_dynamics_ions := some fC10mask }

/-! Helper lemmas about the embedded operations. -/

/-- The modelled square root of 0 is 0, as for the float sqrt. -/
theorem ratSqrt_zero : ratSqrt 0 = 0 := by
  have h1 : natSqrt (0 : ℚ).num.natAbs = 0 := by decide
  have h2 : natSqrt (0 : ℚ).den = 1 := by decide
  rw [ratSqrt, h1, h2]
  norm_num

/-- The norm of the zero spatial vector is 0. -/
theorem norm3_zero : norm3 [0, 0, 0] = 0 := by
  have h : ((([0, 0, 0] : List ℚ).map (fun x => x * x)).sum) = 0 := by norm_num
  rw [norm3, h, ratSqrt_zero]

/-- Inversion of a successful row-wise maximum. -/
theorem maxRows?_some {rows : Arr2} {m : Arr1} (h : maxRows? rows = some m) :
    m = rows.map maxList ∧ ∀ row ∈ rows, row ≠ [] := by
  unfold maxRows? at h
  split at h
  case isTrue hall =>
    refine ⟨(Option.some.injEq _ _ ▸ h).symm, ?_⟩
    intro row hrow hnil
    subst hnil
    have := List.all_eq_true.mp hall _ hrow
    simp at this
  case isFalse => exact absurd h (by simp)

/-- A constant-zero map reads back zero at any index. -/
theorem getD_map_const_zero (l : List ℚ) (x : Nat) :
    (l.map (fun _ => (0 : ℚ))).getD x 0 = 0 := by
  induction l generalizing x with
  | nil => simp
  | cons a t ih =>
    cases x with
    | zero => simp
    | succ y => simp only [List.map_cons, List.getD_cons_succ]; exact ih y

/-- Any entry of an atom row hit by the stacked index list is zero
after the masking assignment, at every step. -/
theorem zeroAtoms_entry {fs : Arr3} {idxs : List Nat} {a : Nat} (ha : a ∈ idxs)
    (s x : Nat) : (((zeroAtoms fs idxs).getD s []).getD a []).getD x 0 = 0 := by
  by_cases hs : s < fs.length
  · have hlen : s < (zeroAtoms fs idxs).length := by
      simp only [zeroAtoms, List.length_map]; exact hs
    rw [List.getD_eq_getElem _ _ hlen]
    unfold zeroAtoms
    rw [List.getElem_map]
    by_cases hA : a < fs[s].length
    · have hlen2 : a < ((List.range fs[s].length).map (fun a =>
          if a ∈ idxs then (fs[s].getD a []).map (fun _ => (0 : ℚ))
          else fs[s].getD a [])).length := by simpa using hA
      rw [List.getD_eq_getElem _ _ hlen2, List.getElem_map, List.getElem_range,
        if_pos ha]
      exact getD_map_const_zero _ x
    · have hrow : ((List.range fs[s].length).map (fun a =>
          if a ∈ idxs then (fs[s].getD a []).map (fun _ => (0 : ℚ))
          else fs[s].getD a [])).getD a [] = [] :=
        List.getD_eq_default _ _ (by simpa using Nat.le_of_not_lt hA)
      rw [hrow]
      simp
  · have hstep : (zeroAtoms fs idxs).getD s [] = [] :=
      List.getD_eq_default _ _ (by simpa [zeroAtoms] using Nat.le_of_not_lt hs)
    rw [hstep]
    simp

/-- A zero mask entry yields its (atom, axis) pair in the np.where
result. -/
theorem mem_maskZeroPairs {mask : List (List Int)} {a x : Nat}
    (hzero : (mask.getD a []).getD x 1 = 0) : (a, x) ∈ maskZeroPairs mask := by
  have ha : a < mask.length := by
    by_contra hcon
    rw [List.getD_eq_default _ _ (Nat.le_of_not_lt hcon)] at hzero
    simp at hzero
  have hx : x < (mask.getD a []).length := by
    by_contra hcon
    rw [List.getD_eq_default _ _ (Nat.le_of_not_lt hcon)] at hzero
    simp at hzero
  unfold maskZeroPairs
  rw [List.mem_flatten]
  refine ⟨(List.range (mask.getD a []).length).filterMap (fun x =>
    if (mask.getD a []).getD x 1 = 0 then some (a, x) else none), ?_, ?_⟩
  · exact List.mem_map.mpr ⟨a, List.mem_range.mpr ha, rfl⟩
  · exact List.mem_filterMap.mpr ⟨x, List.mem_range.mpr hx, by rw [if_pos hzero]⟩

/-- The atom index of a zero mask entry occurs in the stacked index
list. -/
theorem mem_maskZeroIdxs_fst {mask : List (List Int)} {a x : Nat}
    (hzero : (mask.getD a []).getD x 1 = 0) : a ∈ maskZeroIdxs mask := by
  unfold maskZeroIdxs
  exact List.mem_append_left _ (List.mem_map.mpr ⟨(a, x), mem_maskZeroPairs hzero, rfl⟩)

/-- The axis index of a zero mask entry also occurs in the stacked
index list (this is the defect behind the out-of-bounds failure). -/
theorem mem_maskZeroIdxs_snd {mask : List (List Int)} {a x : Nat}
    (hzero : (mask.getD a []).getD x 1 = 0) : x ∈ maskZeroIdxs mask := by
  unfold maskZeroIdxs
  exact List.mem_append_right _ (List.mem_map.mpr ⟨(a, x), mem_maskZeroPairs hzero, rfl⟩)

/-- Length of a step-to-step difference series. -/
theorem diffSeq_length (xs : Arr1) : (diffSeq xs).length = xs.length - 1 := by
  simp [diffSeq]

/-- Length of a step-to-step difference of matrix stacks. -/
theorem diffMat_length (xs : Arr3) : (diffMat xs).length = xs.length - 1 := by
  simp [diffMat]

/-- Entry i of the difference series is xs[i+1] - xs[i]. -/
theorem diffSeq_getD {xs : Arr1} {i : Nat} (h : i + 1 < xs.length) :
    (diffSeq xs).getD i 0 = xs.getD (i + 1) 0 - xs.getD i 0 := by
  have hlen : i < (diffSeq xs).length := by
    rw [diffSeq_length]; omega
  rw [List.getD_eq_getElem _ _ hlen,
    List.getD_eq_getElem _ _ h, List.getD_eq_getElem _ _ (by omega : i < xs.length)]
  unfold diffSeq
  rw [List.getElem_zipWith]
  congr 1
  rcases xs with _ | ⟨x, t⟩
  · simp at h
  · simp

/-- A left fold by min stays below its initial value. -/
theorem foldl_min_le_init (l : List ℚ) (a : ℚ) : l.foldl min a ≤ a := by
  induction l generalizing a with
  | nil => exact le_refl a
  | cons b t ih => exact le_trans (ih (min a b)) (min_le_left a b)

/-- A left fold by min stays below every element. -/
theorem foldl_min_le_mem {l : List ℚ} {y : ℚ} (a : ℚ) (hy : y ∈ l) :
    l.foldl min a ≤ y := by
  induction l generalizing a with
  | nil => cases hy
  | cons b t ih =>
    rcases List.mem_cons.mp hy with hb | ht
    · subst hb
      exact le_trans (foldl_min_le_init t (min a y)) (min_le_right a y)
    · exact ih (min a b) ht

/-- A left fold by min lands on its initial value or on an element. -/
theorem foldl_min_mem (l : List ℚ) (a : ℚ) :
    l.foldl min a = a ∨ l.foldl min a ∈ l := by
  induction l generalizing a with
  | nil => exact Or.inl rfl
  | cons b t ih =>
    rcases ih (min a b) with heq | hmem
    · rcases min_choice a b with hab | hab
      · exact Or.inl (by rw [List.foldl_cons, heq, hab])
      · exact Or.inr (by rw [List.foldl_cons, heq, hab]; exact List.mem_cons_self b t)
    · exact Or.inr (List.mem_cons_of_mem b hmem)

/-- On a nonempty list, minList returns an element of the list. -/
theorem minList_mem {l : Arr1} (h : l ≠ []) : minList l ∈ l := by
  rcases l with _ | ⟨x, t⟩
  · exact absurd rfl h
  · simp only [minList]
    rcases foldl_min_mem t x with heq | hmem
    · rw [heq]; exact List.mem_cons_self x t
    · exact List.mem_cons_of_mem x hmem

/-- minList is a lower bound of the list. -/
theorem minList_le {l : Arr1} {y : ℚ} (hy : y ∈ l) : minList l ≤ y := by
  rcases l with _ | ⟨x, t⟩
  · cases hy
  · simp only [minList]
    rcases List.mem_cons.mp hy with hb | ht
    · subst hb; exact foldl_min_le_init t y
    · exact foldl_min_le_mem x ht

/-- Inversion of a successful VASPData.__init__: the stored arrays are
the arguments and every derived series is the expression assigned at
data.py lines 24-37. -/
theorem init_ok {es : Arr1} {fs ps ls : Arr3} {r : VASPData}
    (h : VASPData.init es fs ps ls = Except.ok r) :
    es ≠ [] ∧
    r.energies = es ∧ r.forces = fs ∧ r.positions = ps ∧ r.lattice_vectors = ls ∧
    r.min_energy = minList es ∧ r.delta_e = diffSeq es ∧
    r.force_intensities = fs.map (fun s => s.map norm3) ∧
    r.forces_rms = (fs.map (fun s => s.map norm3)).map
      (fun row => ratSqrt (mean (row.map (fun x => x * x)))) ∧
    r.forces_max = (fs.map (fun s => s.map norm3)).map maxList ∧
    (∀ row ∈ fs.map (fun s => s.map norm3), row ≠ []) ∧
    r.displacements = diffMat ps ∧
    r.displacement_intensities = (diffMat ps).map (fun s => s.map norm3) ∧
    r.displacements_rms = ((diffMat ps).map (fun s => s.map norm3)).map
      (fun row => ratSqrt (mean (row.map (fun x => x * x)))) ∧
    r.displacements_max = ((diffMat ps).map (fun s => s.map norm3)).map maxList ∧
    r.lattice_vectors_norm = ls.map (fun s => s.map norm3) ∧
    r.cell_volumes = ls.map det3 := by
  unfold VASPData.init at h
  split at h
  case isTrue => exact absurd h (by simp)
  case isFalse hne =>
    split at h
    case h_1 => exact absurd h (by simp)
    case h_2 fm heqf =>
      split at h
      case h_1 => exact absurd h (by simp)
      case h_2 dm heqd =>
        obtain ⟨hfm, hfrows⟩ := maxRows?_some heqf
        obtain ⟨hdm, _⟩ := maxRows?_some heqd
        injection h with h
        subst h hfm hdm
        refine ⟨?_, rfl, rfl, rfl, rfl, rfl, rfl, rfl, rfl, rfl, hfrows,
          rfl, rfl, rfl, rfl, rfl, rfl⟩
        intro hnil
        subst hnil
        simp at hne

/-- Inversion of a successful load from a file carrying a mask: the
stored forces are the raw forces with the stacked index list zeroed
out on the atom axis. -/
theorem from_h5_ok_mask {f : H5File} {mask : List (List Int)} {label : Nat} {r : VASPData}
    (hm : f.selective_dynamics_ions = some mask)
    (h : VASPData.from_h5 f label = Except.ok r) :
    ∃ fs, f.forces = some fs ∧ r.forces = zeroAtoms fs (maskZeroIdxs mask) := by
  unfold VASPData.from_h5 at h
  split at h
  · exact absurd h (by simp)
  case h_2 eRows heq1 =>
    split at h
    · exact absurd h (by simp)
    case h_2 es heq2 =>
      split at h
      · exact absurd h (by simp)
      case h_2 fs heq3 =>
        split at h
        · exact absurd h (by simp)
        case h_2 ps heq4 =>
          split at h
          · exact absurd h (by simp)
          case h_2 ls heq5 =>
            split at h
            case h_1 heq6 =>
              rw [hm] at heq6
              simp at heq6
            case h_2 m heq6 =>
              rw [hm] at heq6
              injection heq6 with heq6
              subst heq6
              split at h
              · exact absurd h (by simp)
              · exact ⟨fs, heq3, (init_ok h).2.2.1⟩

/-! Claim theorems. -/

/-- C1.  For every trajectory loaded from a file with a
selective-dynamics mask, every step s and every (atom, axis) pair with
a zero mask value, the stored force entry [s, atom, axis] is exactly
zero. -/
theorem c1_masked_force_entries_zero (f : H5File) (mask : List (List Int))
    (r : VASPData) (label a x : Nat)
    (hm : f.selective_dynamics_ions = some mask)
    (hzero : (mask.getD a []).getD x 1 = 0)
    (hok : VASPData.from_h5 f label = Except.ok r) :
    ∀ s, (((r.forces.getD s []).getD a []).getD x 0) = 0 := by
  obtain ⟨fs, _, hforces⟩ := from_h5_ok_mask hm hok
  intro s
  rw [hforces]
  exact zeroAtoms_entry (mem_maskZeroIdxs_fst hzero) s x

/-- C1 witness: the spec scenario.  Forces of atom 2 at step 0 are
(3, 4, 0) in the file, the mask freezes atom 2 on x and y, and after
loading the stored forces of atom 2 at step 0 are (0, 0, 0) and its
force intensity at step 0 is 0. -/
theorem c1_witness :
    (fC1mask.getD 1 []).getD 0 1 = 0 ∧ (fC1mask.getD 1 []).getD 1 1 = 0 ∧
    VASPData.from_h5 fC1 1 = Except.ok recC1 ∧
    ((recC1.forces.getD 0 []).getD 1 []).getD 0 0 = 0 ∧
    ((recC1.forces.getD 0 []).getD 1 []).getD 1 0 = 0 ∧
    ((recC1.forces.getD 0 []).getD 1 []).getD 2 0 = 0 ∧
    (recC1.force_intensities.getD 0 []).getD 1 0 = 0 := by
  have hok : VASPData.from_h5 fC1 1 = Except.ok recC1 := rfl
  refine ⟨by decide, by decide, hok,
    c1_masked_force_entries_zero fC1 fC1mask recC1 1 1 0 rfl (by decide) hok 0,
    c1_masked_force_entries_zero fC1 fC1mask recC1 1 1 1 rfl (by decide) hok 0,
    rfl, ?_⟩
  show norm3 [0, 0, 0] = 0
  exact norm3_zero

/-- C2 as stated is false of the code: the np.where pair is applied as
one stacked index array on the atom axis, so the assignment zeroes
whole atom rows (both for the atom indices and for the axis indices of
the zero mask entries).  In fC2 only (atom 0, axis y) is frozen; the
mask row of atom 1 is all ones, yet the stored x force of atom 1 is 0
while the raw file value is 4. -/
theorem c2_whole_atom_zeroed :
    (fC2mask.getD 1 []).getD 0 1 ≠ 0 ∧
    (fC2mask.getD 1 []).getD 1 1 ≠ 0 ∧
    (fC2mask.getD 1 []).getD 2 1 ≠ 0 ∧
    (((fC2.forces.getD []).getD 0 []).getD 1 []).getD 0 0 = 4 ∧
    (VASPData.from_h5 fC2 1).map
      (fun r => ((r.forces.getD 0 []).getD 1 []).getD 0 0) = Except.ok 0 :=
  ⟨by decide, by decide, by decide, rfl, rfl⟩

/-- C10.  Whenever the mask has a zero entry whose axis index is not
below the atom count, the loader raises the out-of-bounds IndexError
instead of returning a record. -/
theorem c10_mask_out_of_bounds (f : H5File) (mask : List (List Int))
    (eRows : Arr2) (es : Arr1) (fs ps ls : Arr3) (label a x : Nat)
    (he : f.energies = some eRows)
    (hsel : selectColumn eRows label = Except.ok es)
    (hf : f.forces = some fs)
    (hp : f.position_ions = some ps)
    (hl : f.lattice_vectors = some ls)
    (hm : f.selective_dynamics_ions = some mask)
    (hzero : (mask.getD a []).getD x 1 = 0)
    (hx : atomDim fs ≤ x) :
    VASPData.from_h5 f label = Except.error PyErr.indexError := by
  simp only [VASPData.from_h5, he, hsel, hf, hp, hl, hm]
  rw [if_pos]
  exact List.any_eq_true.mpr ⟨x, mem_maskZeroIdxs_snd hzero, decide_eq_true hx⟩

/-- C10 witness: two atoms, mask freezing the z component of atom 2;
the axis index 2 reaches the atom dimension of size 2 and loading
fails with IndexError. -/
theorem c10_witness : VASPData.from_h5 fC10 1 = Except.error PyErr.indexError :=
  c10_mask_out_of_bounds fC10 fC10mask [[0, 1]] [1]
    [[[1, 0, 0], [0, 1, 0]]] [[[0, 0, 0], [1, 0, 0]]] [idLat] 1 1 2
    rfl rfl rfl rfl rfl rfl (by decide) (by decide)

/-- C3.  For a valid trajectory of N steps, the per-step series have
length N and the per-step-transition series have length N - 1. -/
theorem c3_series_lengths (es : Arr1) (fs ps ls : Arr3) (r : VASPData) (N : Nat)
    (hok : VASPData.init es fs ps ls = Except.ok r)
    (hE : es.length = N) (hF : fs.length = N) (hP : ps.length = N) (hL : ls.length = N)
    (_hN : 1 ≤ N) :
    r.forces_rms.length = N ∧ r.forces_max.length = N ∧
    r.lattice_vectors_norm.length = N ∧ r.cell_volumes.length = N ∧
    r.delta_e.length = N - 1 ∧ r.displacements_rms.length = N - 1 ∧
    r.displacements_max.length = N - 1 := by
  obtain ⟨-, -, -, -, -, -, hde, -, hfrms, hfmax, -, -, -, hdrms, hdmax, hlatn, hvol⟩ :=
    init_ok hok
  refine ⟨?_, ?_, ?_, ?_, ?_, ?_, ?_⟩
  · rw [hfrms]; simp [hF]
  · rw [hfmax]; simp [hF]
  · rw [hlatn]; simp [hL]
  · rw [hvol]; simp [hL]
  · rw [hde, diffSeq_length, hE]
  · rw [hdrms]; simp [diffMat_length, hP]
  · rw [hdmax]; simp [diffMat_length, hP]

/-- C3 witness: a two-step, one-atom trajectory has per-step series of
length 2 and per-step-transition series of length 1. -/
theorem c3_witness :
    VASPData.init esC3 fsC3 psC3 lsC3 = Except.ok recC3 ∧
    recC3.forces_rms.length = 2 ∧ recC3.forces_max.length = 2 ∧
    recC3.lattice_vectors_norm.length = 2 ∧ recC3.cell_volumes.length = 2 ∧
    recC3.delta_e.length = 1 ∧ recC3.displacements_rms.length = 1 ∧
    recC3.displacements_max.length = 1 := by
  have hok : VASPData.init esC3 fsC3 psC3 lsC3 = Except.ok recC3 := rfl
  obtain ⟨h1, h2, h3, h4, h5, h6, h7⟩ :=
    c3_series_lengths esC3 fsC3 psC3 lsC3 recC3 2 hok rfl rfl rfl rfl (by decide)
  exact ⟨hok, h1, h2, h3, h4, h5, h6, h7⟩

/-- C4.  min_energy is the exact minimum of the stored energies (a
member of the list bounding it from below), and delta_e[i] is exactly
energies[i+1] - energies[i] for every valid i. -/
theorem c4_min_delta (es : Arr1) (fs ps ls : Arr3) (r : VASPData)
    (hok : VASPData.init es fs ps ls = Except.ok r) :
    (r.min_energy ∈ r.energies ∧ ∀ y ∈ r.energies, r.min_energy ≤ y) ∧
    ∀ i, i + 1 < r.energies.length →
      r.delta_e.getD i 0 = r.energies.getD (i + 1) 0 - r.energies.getD i 0 := by
  obtain ⟨hne, hen, -, -, -, hmin, hde, -, -, -, -, -, -, -, -, -, -⟩ := init_ok hok
  constructor
  · rw [hmin, hen]
    exact ⟨minList_mem hne, fun y hy => minList_le hy⟩
  · intro i hi
    rw [hen] at hi
    rw [hde, hen]
    exact diffSeq_getD hi

/-- C4 witness: the spec scenario, energies [10.0, 9.5, 9.6] with
min_energy 9.5 and delta_e [-0.5, 0.1]. -/
theorem c4_witness :
    VASPData.init esC4 fsC4 psC4 lsC4 = Except.ok recC4 ∧
    recC4.min_energy ∈ recC4.energies ∧
    recC4.min_energy = 19/2 ∧ recC4.delta_e = [-(1/2), 1/10] ∧
    recC4.delta_e.getD 1 0 = recC4.energies.getD 2 0 - recC4.energies.getD 1 0 := by
  have hok : VASPData.init esC4 fsC4 psC4 lsC4 = Except.ok recC4 := rfl
  refine ⟨hok, (c4_min_delta esC4 fsC4 psC4 lsC4 recC4 hok).1.1, ?_, ?_,
    (c4_min_delta esC4 fsC4 psC4 lsC4 recC4 hok).2 1 (by decide)⟩
  · show minList esC4 = 19/2
    norm_num [minList, esC4, min_def]
  · show diffSeq esC4 = [-(1/2), 1/10]
    norm_num [diffSeq, esC4]

/-- C5.  A valid single-step trajectory (one step, at least one atom)
constructs successfully; the transition series and the cumulative
displacement are empty while the per-step series have length 1. -/
theorem c5_single_step (es : Arr1) (fs ps ls : Arr3)
    (hE : es.length = 1) (hF : fs.length = 1) (hP : ps.length = 1) (hL : ls.length = 1)
    (hatoms : ∀ s ∈ fs, s ≠ []) :
    ∃ r, VASPData.init es fs ps ls = Except.ok r ∧
      r.delta_e = [] ∧ r.displacements = [] ∧ r.displacements_rms = [] ∧
      r.displacements_max = [] ∧ r.ddisps_sum = [] ∧
      r.forces_rms.length = 1 ∧ r.forces_max.length = 1 ∧
      r.lattice_vectors_norm.length = 1 ∧ r.cell_volumes.length = 1 := by
  obtain ⟨e, rfl⟩ := List.length_eq_one.mp hE
  obtain ⟨f0, rfl⟩ := List.length_eq_one.mp hF
  obtain ⟨p0, rfl⟩ := List.length_eq_one.mp hP
  obtain ⟨l0, rfl⟩ := List.length_eq_one.mp hL
  obtain ⟨fa, ft, rfl⟩ := List.exists_cons_of_ne_nil (hatoms f0 (List.mem_cons_self f0 []))
  exact ⟨_, rfl, rfl, rfl, rfl, rfl, rfl, rfl, rfl, rfl, rfl⟩

/-- C5 witness: a concrete single-step single-atom trajectory. -/
theorem c5_witness :
    ∃ r, VASPData.init [5] [[[1, 0, 0]]] [[[0, 0, 0]]] [idLat] = Except.ok r ∧
      r.delta_e = [] ∧ r.displacements = [] ∧ r.displacements_rms = [] ∧
      r.displacements_max = [] ∧ r.ddisps_sum = [] ∧
      r.forces_rms.length = 1 ∧ r.forces_max.length = 1 ∧
      r.lattice_vectors_norm.length = 1 ∧ r.cell_volumes.length = 1 :=
  c5_single_step [5] [[[1, 0, 0]]] [[[0, 0, 0]]] [idLat] rfl rfl rfl rfl (by decide)

/-- C8 as stated is false of the code: the record carries no
cumulative-displacement field computed at construction; the attribute
set bound by VASPData.__init__ contains no such name. -/
theorem c8_counterexample : "cumulative_displacement" ∉ VASPData.attrNames := by decide

/-- C8 amended: the cumulative-displacement series is the one computed
inside make_graphs on each call; it has length N - 1 and its entry i
(for the step i + 1) is the sum over atoms of the norm of
positions[i+1] - positions[0], exactly the spec formula. -/
theorem c8_ddisps_sum_spec (es : Arr1) (fs ps ls : Arr3) (r : VASPData) (N : Nat)
    (hok : VASPData.init es fs ps ls = Except.ok r)
    (hP : ps.length = N) (hN : 1 ≤ N) :
    r.ddisps_sum.length = N - 1 ∧
    ∀ i, i + 1 < N →
      r.ddisps_sum.getD i 0 = cumulative_displacement_spec ps (i + 1) := by
  obtain ⟨-, -, -, hpo, -, -, -, -, -, -, -, -, -, -, -, -, -⟩ := init_ok hok
  unfold VASPData.ddisps_sum
  rw [hpo]
  have hpsne : ps ≠ [] := by
    intro hnil
    rw [hnil] at hP
    simp at hP
    omega
  obtain ⟨p0, pt, rfl⟩ := List.exists_cons_of_ne_nil hpsne
  have hptlen : pt.length = N - 1 := by
    simp at hP
    omega
  constructor
  · simp [hptlen]
  · intro i hi
    have hilen : i < pt.length := by omega
    unfold cumulative_displacement_spec
    rw [List.getD_cons_succ, List.getD_cons_zero]
    have hmaplen : i < ((((p0 :: pt).tail.map
        (fun p => matSub p ((p0 :: pt).headD []))).map
        (fun step => step.map norm3)).map List.sum).length := by
      simpa using hilen
    rw [List.getD_eq_getElem _ _ hmaplen, List.getElem_map, List.getElem_map,
      List.getElem_map, List.getD_eq_getElem _ _ hilen]
    rfl

/-- C8 witness: a two-step, two-atom trajectory; the single entry of
the series equals the spec formula at step 1. -/
theorem c8_witness :
    VASPData.init esC8 fsC8 psC8 lsC8 = Except.ok recC8 ∧
    recC8.ddisps_sum.length = 1 ∧
    recC8.ddisps_sum.getD 0 0 = cumulative_displacement_spec psC8 1 := by
  have hok : VASPData.init esC8 fsC8 psC8 lsC8 = Except.ok recC8 := rfl
  obtain ⟨h1, h2⟩ := c8_ddisps_sum_spec esC8 fsC8 psC8 lsC8 recC8 2 hok rfl (by decide)
  exact ⟨hok, h1, h2 0 (by decide)⟩

/-- C6 as stated is false of the code: at a zero-atom input the loader
fails with the untyped numpy ValueError, not with a typed error of the
repository's VASPDataError class (of which ShapeMismatchError would be
an instance); no such class is ever raised. -/
theorem c6_counterexample :
    VASPData.from_h5 fC6 1 = Except.error PyErr.valueError ∧
    loadErrIsTyped (VASPData.from_h5 fC6 1) = false :=
  ⟨rfl, rfl⟩

/-- C6 amended: with a zero atom count the loader does reject the
input -- no record is constructed -- but with numpy's builtin
ValueError raised by the empty max-reduction, not with a typed
ShapeMismatchError. -/
theorem c6_zero_atoms_valueerror (f : H5File) (eRows : Arr2) (es : Arr1)
    (fs ps ls : Arr3)
    (he : f.energies = some eRows) (hsel : selectColumn eRows 1 = Except.ok es)
    (hes : es ≠ []) (hf : f.forces = some fs) (hp : f.position_ions = some ps)
    (hl : f.lattice_vectors = some ls) (hm : f.selective_dynamics_ions = none)
    (hfne : fs ≠ []) (hatoms : ∀ s ∈ fs, s = []) :
    VASPData.from_h5 f 1 = Except.error PyErr.valueError := by
  simp only [VASPData.from_h5, he, hsel, hf, hp, hl, hm]
  obtain ⟨s0, ft, rfl⟩ := List.exists_cons_of_ne_nil hfne
  have hs0 : s0 = [] := hatoms s0 (List.mem_cons_self s0 ft)
  subst hs0
  have hesb : ¬(es.isEmpty = true) := fun hemp => hes (List.isEmpty_iff.mp hemp)
  unfold VASPData.init
  rw [if_neg hesb]
  have hmr : maxRows? ((([] : Arr2) :: ft).map (fun s => s.map norm3)) = none := by
    simp [maxRows?]
  rw [hmr]

/-- C6 witness: the concrete zero-atom file. -/
theorem c6_witness : VASPData.from_h5 fC6 1 = Except.error PyErr.valueError :=
  c6_zero_atoms_valueerror fC6 [[0, 1]] [1] [[]] [[]] [idLat]
    rfl rfl (by decide) rfl rfl rfl rfl (by decide) (by decide)

/-- C7 as stated is false of the code: with the energies path absent
the loader fails with the builtin KeyError, not with a typed error of
the repository's VASPDataError class (of which MissingFieldError would
be an instance). -/
theorem c7_counterexample :
    VASPData.from_h5 fC7 1 = Except.error (PyErr.keyError "energies") ∧
    loadErrIsTyped (VASPData.from_h5 fC7 1) = false :=
  ⟨rfl, rfl⟩

/-- C7 amended: a missing required path makes the loader fail before
any record is constructed, with a KeyError naming that path (the
first absent one in source order). -/
theorem c7_missing_field_keyerror :
    (∀ (f : H5File) (label : Nat), f.energies = none →
      VASPData.from_h5 f label = Except.error (PyErr.keyError "energies")) ∧
    (∀ (f : H5File) (label : Nat) (eRows : Arr2) (es : Arr1),
      f.energies = some eRows → selectColumn eRows label = Except.ok es →
      f.forces = none →
      VASPData.from_h5 f label = Except.error (PyErr.keyError "forces")) ∧
    (∀ (f : H5File) (label : Nat) (eRows : Arr2) (es : Arr1) (fs : Arr3),
      f.energies = some eRows → selectColumn eRows label = Except.ok es →
      f.forces = some fs → f.position_ions = none →
      VASPData.from_h5 f label = Except.error (PyErr.keyError "position_ions")) ∧
    (∀ (f : H5File) (label : Nat) (eRows : Arr2) (es : Arr1) (fs ps : Arr3),
      f.energies = some eRows → selectColumn eRows label = Except.ok es →
      f.forces = some fs → f.position_ions = some ps → f.lattice_vectors = none →
      VASPData.from_h5 f label = Except.error (PyErr.keyError "lattice_vectors")) := by
  refine ⟨?_, ?_, ?_, ?_⟩
  · intro f label he
    simp only [VASPData.from_h5, he]
  · intro f label eRows es he hsel hf
    simp only [VASPData.from_h5, he, hsel, hf]
  · intro f label eRows es fs he hsel hf hp
    simp only [VASPData.from_h5, he, hsel, hf, hp]
  · intro f label eRows es fs ps he hsel hf hp hl
    simp only [VASPData.from_h5, he, hsel, hf, hp, hl]

/-- C7 witness: four concrete containers, each missing exactly the
named path (and every earlier one present), each rejected with the
KeyError naming it. -/
theorem c7_witness :
    VASPData.from_h5 fC7 1 = Except.error (PyErr.keyError "energies") ∧
    VASPData.from_h5 fC7forces 1 = Except.error (PyErr.keyError "forces") ∧
    VASPData.from_h5 fC7positions 1 = Except.error (PyErr.keyError "position_ions") ∧
    VASPData.from_h5 fC7lattice 1 = Except.error (PyErr.keyError "lattice_vectors") :=
  ⟨c7_missing_field_keyerror.1 fC7 1 rfl,
   c7_missing_field_keyerror.2.1 fC7forces 1 [[0, 1]] [1] rfl rfl rfl,
   c7_missing_field_keyerror.2.2.1 fC7positions 1 [[0, 1]] [1] [[[1, 0, 0]]]
     rfl rfl rfl rfl,
   c7_missing_field_keyerror.2.2.2 fC7lattice 1 [[0, 1]] [1] [[[1, 0, 0]]]
     [[[0, 0, 0]]] rfl rfl rfl rfl rfl⟩

/-- C9 is false of the code: building the tabular view fails with
AttributeError for every record, because the loop bound data.N
(windows.py line 107) is an attribute that VASPData.__init__ never
assigns; no row is ever produced. -/
theorem c9_table_attribute_failure (d : VASPData) :
    make_notebook_page_data d = Except.error PyErr.attributeError := by
  unfold make_notebook_page_data VASPData.getN
  rw [if_neg (by decide : ¬("N" ∈ VASPData.attrNames))]

/-- C9 witness: the failure at a concrete fully derived record. -/
theorem c9_witness :
    make_notebook_page_data dC9 = Except.error PyErr.attributeError :=
  c9_table_attribute_failure dC9

end VaspOptFollows
